import Mathlib

/-!
Verification development for the `clue` screenshot-assistant program
(`src/clue.py`).  The parts of the program the claims are about are
embedded shallowly below:

* `ResponseWindow._render_markdown` / `_render_inline` (clue.py lines
  178-240) become the pure functions `render_markdown`, `classifyLine`,
  `renderInline`: each call of `text_widget.insert(tk.END, txt, tag)`
  is modelled as one `Seg` (a styled segment) appended to the output
  list.
* The hotkey listener callbacks `on_press` / `on_release` set up in
  `ClueApp.run` (lines 672-696) become a step function on `HKState`.
* `ClueApp._refresh_gauth_token` / `_analyze_gauth` (lines 473-613)
  become pure functions over a credential record plus an oracle for the
  token-endpoint response, returning the updated credential and the
  ordered list of externally visible effects (token-refresh request,
  credential-file write, analyze request).
* `ClueApp.on_hotkey`'s inner `process` closure (lines 619-651) becomes
  a function from the outcomes of the capture and analyze steps to the
  ordered list of effects of one pipeline run.
-/

/-! ## Markdown renderer (clue.py lines 178-240) -/

/-- Style tags used by `text_widget.insert`; `plain` stands for an insert
with no tag (clue.py line 240), the others are the tag strings of
lines 194, 210, 212, 214, 234, 236, 238.  The fenced-code tag is named
`code` in the source (line 194); the spec calls it `code_block`. -/
inductive Tag where
  | plain
  | h1
  | h2
  | h3
  | bold
  | italic
  | inline_code
  | code
  deriving DecidableEq, Repr

/-- One styled segment: one `insert` call of the renderer. -/
structure Seg where
  tag : Tag
  text : String
  deriving DecidableEq, Repr

/-- Python `str.startswith` on character lists. -/
def hasPrefixL : List Char → List Char → Bool
  | [], _ => true
  | _ :: _, [] => false
  | p :: ps, c :: cs => p == c && hasPrefixL ps cs

/-- Python `str.endswith` on character lists. -/
def hasSuffixL (p l : List Char) : Bool :=
  hasPrefixL p.reverse l.reverse

/-- Python slice `l[a:-b]` (clamps to empty when the string is short). -/
def sliceTrim (a b : Nat) (l : List Char) : List Char :=
  (l.drop a).take (l.length - (a + b))

/-- Python `content.split('\n')` (clue.py line 181). -/
def splitLines : List Char → List (List Char)
  | [] => [[]]
  | c :: r =>
    if c = '\n' then [] :: splitLines r
    else
      match splitLines r with
      | l :: ls => (c :: l) :: ls
      | [] => [[c]]

/-- Lazy search for the earliest closing `**` of the regex branch
`\*\*.*?\*\*` (clue.py line 229); `.` does not match a newline.
Returns the characters consumed before the closing fence and the rest. -/
def findStarStar : List Char → Option (List Char × List Char)
  | '*' :: '*' :: r => some ([], r)
  | c :: r =>
    if c = '\n' then none
    else
      match findStarStar r with
      | some (m, rest) => some (c :: m, rest)
      | none => none
  | [] => none

/-- Lazy search for the earliest closing `*` of the regex branch
`\*.*?\*` (clue.py line 229); `.` does not match a newline. -/
def findStar : List Char → Option (List Char × List Char)
  | '*' :: r => some ([], r)
  | c :: r =>
    if c = '\n' then none
    else
      match findStar r with
      | some (m, rest) => some (c :: m, rest)
      | none => none
  | [] => none

/-- Search for the closing backtick of the regex branch `` `[^`]+` ``
(clue.py line 229); `[^`]` does match a newline. -/
def findTick : List Char → Option (List Char × List Char)
  | '`' :: r => some ([], r)
  | c :: r =>
    match findTick r with
    | some (m, rest) => some (c :: m, rest)
    | none => none
  | [] => none

/-- Leftmost match of the alternation `\*\*.*?\*\*|\*.*?\*|`[^`]+``
(clue.py line 229) anchored at the start of the input, alternatives
tried in order; returns the matched characters and the rest. -/
def matchInline : List Char → Option (List Char × List Char)
  | '*' :: '*' :: r =>
    (match findStarStar r with
     | some (mid, rest) => some ('*' :: '*' :: (mid ++ ['*', '*']), rest)
     | none =>
       match findStar ('*' :: r) with
       | some (mid, rest) => some ('*' :: (mid ++ ['*']), rest)
       | none => none)
  | '*' :: r =>
    (match findStar r with
     | some (mid, rest) => some ('*' :: (mid ++ ['*']), rest)
     | none => none)
  | '`' :: r =>
    (match findTick r with
     | some (mid, rest) => if mid.isEmpty then none else some ('`' :: (mid ++ ['`']), rest)
     | none => none)
  | _ => none

/-- `re.split` with the capturing pattern of clue.py line 229: the parts
between matches interleaved with the matches themselves, exactly as
Python returns them (empty gap strings included).  `fuel` bounds the
scan; every step consumes at least one character, so `cs.length` fuel
is always enough. -/
def reSplitAux : Nat → List Char → List Char → List (List Char)
  | 0, acc, cs => [acc.reverse ++ cs]
  | _ + 1, acc, [] => [acc.reverse]
  | fuel + 1, acc, c :: cs =>
    match matchInline (c :: cs) with
    | some (m, rest) => acc.reverse :: m :: reSplitAux fuel [] rest
    | none => reSplitAux fuel (c :: acc) cs

def reSplit (cs : List Char) : List (List Char) :=
  reSplitAux cs.length [] cs

/-- Classification of one part returned by the split, mirroring the
prefix/suffix checks of `_render_inline` (clue.py lines 232-240). -/
def classifyPart (part : List Char) : Seg :=
  if hasPrefixL ['*', '*'] part && hasSuffixL ['*', '*'] part then
    ⟨Tag.bold, String.mk (sliceTrim 2 2 part)⟩
  else if hasPrefixL ['*'] part && hasSuffixL ['*'] part then
    ⟨Tag.italic, String.mk (sliceTrim 1 1 part)⟩
  else if hasPrefixL ['`'] part && hasSuffixL ['`'] part then
    ⟨Tag.inline_code, String.mk (sliceTrim 1 1 part)⟩
  else
    ⟨Tag.plain, String.mk part⟩

/-- `ResponseWindow._render_inline` (clue.py lines 226-240). -/
def renderInline (t : List Char) : List Seg :=
  (reSplit t).map classifyPart

/-- The ordered-list test `re.match(r'^\d+\. ', line)` of clue.py
line 218 (decimal digits). -/
def orderedListStart (l : List Char) : Bool :=
  !(l.takeWhile Char.isDigit).isEmpty &&
    hasPrefixL ['.', ' '] (l.dropWhile Char.isDigit)

/-- Per-line classification of `_render_markdown` outside a fenced code
block (clue.py lines 208-222): headers, bullets, ordered lists, plain
text.  Every emitted line of text carries the `'\n'` the source appends
before inserting. -/
def classifyLine (line : List Char) : List Seg :=
  if hasPrefixL ['#', '#', '#', ' '] line then
    [⟨Tag.h3, String.mk (line.drop 4 ++ ['\n'])⟩]
  else if hasPrefixL ['#', '#', ' '] line then
    [⟨Tag.h2, String.mk (line.drop 3 ++ ['\n'])⟩]
  else if hasPrefixL ['#', ' '] line then
    [⟨Tag.h1, String.mk (line.drop 2 ++ ['\n'])⟩]
  else if hasPrefixL ['-', ' '] line || hasPrefixL ['*', ' '] line then
    renderInline ([' ', ' ', '•', ' '] ++ line.drop 2 ++ ['\n'])
  else if orderedListStart line then
    renderInline ([' ', ' '] ++ line ++ ['\n'])
  else
    renderInline (line ++ ['\n'])

/-- The main loop of `_render_markdown` (clue.py lines 186-224) over the
split lines, with the `in_code_block` flag and the `code_buffer`
accumulator.  Note that when the input ends while `in_code_block` is
set, the loop simply terminates and the buffer is dropped ­- there is no
flush after the `while` in the source. -/
def renderLines : List (List Char) → Bool → List (List Char) → List Seg
  | [], _, _ => []
  | line :: rest, inCode, buf =>
    if hasPrefixL ['`', '`', '`'] line then
      if inCode then
        ⟨Tag.code, String.mk (List.intercalate ['\n'] buf ++ ['\n'])⟩ ::
          renderLines rest false []
      else
        renderLines rest true buf
    else if inCode then
      renderLines rest inCode (buf ++ [line])
    else
      classifyLine line ++ renderLines rest inCode buf

/-- `ResponseWindow._render_markdown` (clue.py lines 178-224): the full
sequence of styled segments inserted for one content string. -/
def render_markdown (content : String) : List Seg :=
  renderLines (splitLines content.data) false []

/-! ## Hotkey monitor (clue.py lines 672-696) -/

/-- The keys the listener callbacks distinguish: the four modifier key
objects compared explicitly, character keys (`hasattr(key, 'char')`),
and any other special key. -/
inductive Key where
  | cmd
  | cmd_r
  | shift
  | shift_r
  | ch (c : Char)
  | other (n : Nat)
  deriving DecidableEq, Repr

inductive KEvent where
  | down (k : Key)
  | up (k : Key)
  deriving DecidableEq, Repr

/-- The two modifier booleans initialised to `False` in `ClueApp.run`
(clue.py lines 673-674). -/
structure HKState where
  cmd_pressed : Bool
  shift_pressed : Bool
  deriving DecidableEq, Repr

/-- `on_press` (clue.py lines 676-684): returns the new state and
whether `on_hotkey` was invoked. -/
def on_press (s : HKState) : Key → HKState × Bool
  | Key.cmd => ({ s with cmd_pressed := true }, false)
  | Key.cmd_r => ({ s with cmd_pressed := true }, false)
  | Key.shift => ({ s with shift_pressed := true }, false)
  | Key.shift_r => ({ s with shift_pressed := true }, false)
  | Key.ch c => (s, if c = 'f' then s.cmd_pressed && s.shift_pressed else false)
  | Key.other _ => (s, false)

/-- `on_release` (clue.py lines 686-690). -/
def on_release (s : HKState) : Key → HKState
  | Key.cmd => { s with cmd_pressed := false }
  | Key.cmd_r => { s with cmd_pressed := false }
  | Key.shift => { s with shift_pressed := false }
  | Key.shift_r => { s with shift_pressed := false }
  | Key.ch _ => s
  | Key.other _ => s

/-- One listener event: key-down runs `on_press`, key-up runs
`on_release` (which never triggers). -/
def step (s : HKState) : KEvent → HKState × Bool
  | KEvent.down k => on_press s k
  | KEvent.up k => (on_release s k, false)

/-- Fold over an event interleaving, recording for each event whether it
fired the hotkey. -/
def runEvents (s : HKState) : List KEvent → HKState × List Bool
  | [] => (s, [])
  | e :: es =>
    let p := step s e
    let q := runEvents p.1 es
    (q.1, p.2 :: q.2)

/-! ## OAuth credential refresh (clue.py lines 473-613) -/

/-- The credential object loaded from `credentials.json`.  Fields the
source reads with `dict.get` (and so may be absent) are `Option`s;
`access_token` is always indexed directly. -/
structure GauthCred where
  access_token : String
  refresh_token : Option String
  expires_at : Option Int
  provider : Option String
  project_id : Option String
  deriving DecidableEq, Repr

/-- The parsed JSON body of a successful token-endpoint response:
`tokens['access_token']` is indexed, `tokens.get('expires_in', 3600)`
has a default. -/
structure TokenResponse where
  access_token : String
  expires_in : Option Int
  deriving DecidableEq, Repr

/-- Externally visible effects of the gauth analyze path, in program
order: the POST to the OAuth token endpoint (line 502, carrying the
stored refresh token), the rewrite of the credential file (lines
510-511, carrying the full object written), and the analyze POST to the
generate-content endpoint (line 576, carrying the bearer token used). -/
inductive GEffect where
  | refreshRequest (refresh_token : Option String)
  | writeCredsFile (c : GauthCred)
  | analyzeRequest (bearer : String)
  deriving DecidableEq, Repr

def isRefreshRequest : GEffect → Bool
  | GEffect.refreshRequest _ => true
  | _ => false

/-- `ClueApp._refresh_gauth_token` (clue.py lines 473-513) with the
token-endpoint response supplied as an oracle (`tokens`), for the case
where that request succeeds.  Returns the token handed back, the
credential object as it is in memory afterwards, and the effect list. -/
def refresh_gauth_token (creds : GauthCred) (current_time : Int)
    (tokens : TokenResponse) : String × GauthCred × List GEffect :=
  if current_time < creds.expires_at.getD 0 then
    (creds.access_token, creds, [])
  else
    let updated : GauthCred :=
      { creds with
        access_token := tokens.access_token,
        expires_at := some (current_time + tokens.expires_in.getD 3600 * 1000) }
    (tokens.access_token, updated,
      [GEffect.refreshRequest creds.refresh_token, GEffect.writeCredsFile updated])

/-- The token-lifecycle part of `ClueApp._analyze_gauth` (clue.py lines
515-576): resolve a valid access token via `_refresh_gauth_token`, then
issue the generate-content request with it as bearer. -/
def analyze_gauth (creds : GauthCred) (current_time : Int)
    (tokens : TokenResponse) : GauthCred × List GEffect :=
  let r := refresh_gauth_token creds current_time tokens
  (r.2.1, r.2.2 ++ [GEffect.analyzeRequest r.1])

/-- One `parts[]` entry of the generate-content response
(clue.py lines 583-593): optional `text`, optional `thought`/`thinking`
flags (absent modelled as `false`). -/
structure GPart where
  text : Option String
  thought : Bool
  thinking : Bool
  deriving DecidableEq, Repr

/-- One candidate, holding `content.parts` (absent levels default to
empty via `dict.get`). -/
structure GCandidate where
  parts : List GPart
  deriving DecidableEq, Repr

/-- The `response_parts` accumulation of clue.py lines 587-593: parts
flagged `thought`/`thinking` are diverted to the thinking log, the
remaining parts with a `text` field are kept. -/
def response_parts (parts : List GPart) : List String :=
  parts.filterMap fun p => if p.thought || p.thinking then none else p.text

/-- Text extraction from the parsed generate-content response
(clue.py lines 579-613).  The codomain is `Except` so that "the call
fails" is expressible; this region of the source raises nothing, so
every branch is `Except.ok`: no candidates returns the sentinel
`'No response from model'` (line 613), candidates without response
text return `'No text in response'` (line 605), otherwise the
non-thinking texts joined by newline are returned. -/
def gauthExtract (candidates : List GCandidate) : Except String String :=
  match candidates with
  | [] => Except.ok "No response from model"
  | cand :: _ =>
    let rp := response_parts cand.parts
    Except.ok (if rp.isEmpty then "No text in response" else String.intercalate "\n" rp)

/-! ## Pipeline run (clue.py lines 615-651) -/

/-- Externally visible effects of one `process` run, in program order:
the "Analyzing..." notification (line 626), the backend analyze call
(line 633), the response display (line 638), the artifact deletion
(line 641), the error display (line 646). -/
inductive PEffect where
  | notify (image_path : String)
  | analyzeCall (image_path : String)
  | showResponse (text : String)
  | deleteFile (image_path : String)
  | showError (text : String)
  deriving DecidableEq, Repr

def isDeleteFile : PEffect → Bool
  | PEffect.deleteFile _ => true
  | _ => false

def isAnalyzeCall : PEffect → Bool
  | PEffect.analyzeCall _ => true
  | _ => false

/-- The `process` closure of `ClueApp.on_hotkey` (clue.py lines
619-646), with the outcomes of the capture step and of the analyze step
supplied as oracles (`Except.error` carries `str(e)` of the raised
exception).  The whole body is one `try`: an exception anywhere jumps
to the `except` branch, which displays `"Error: " + str(e)`; the
`os.unlink` sits inside the `try` after the response display. -/
def process (cap : Except String String) (ana : Except String String) : List PEffect :=
  match cap with
  | Except.error e => [PEffect.showError ("Error: " ++ e)]
  | Except.ok image_path =>
    match ana with
    | Except.error e =>
      [PEffect.notify image_path, PEffect.analyzeCall image_path,
       PEffect.showError ("Error: " ++ e)]
    | Except.ok response =>
      [PEffect.notify image_path, PEffect.analyzeCall image_path,
       PEffect.showResponse response, PEffect.deleteFile image_path]

/-! ## Helper lemmas -/

theorem exists_of_hasPrefixL : ∀ (p l : List Char), hasPrefixL p l = true → ∃ t, l = p ++ t
  | [], l, _ => ⟨l, rfl⟩
  | _ :: _, [], h => by simp [hasPrefixL] at h
  | p :: ps, c :: cs, h => by
    rw [hasPrefixL, Bool.and_eq_true, beq_iff_eq] at h
    obtain ⟨h1, h2⟩ := h
    obtain ⟨t, ht⟩ := exists_of_hasPrefixL ps cs h2
    subst h1
    exact ⟨t, by rw [ht]; rfl⟩

/-- `true` unless the effect is a credential-file write whose payload
differs from `c` on `refresh_token`, `provider` or `project_id`. -/
def credFieldsFrame (c : GauthCred) : GEffect → Bool
  | GEffect.writeCredsFile w =>
    w.refresh_token == c.refresh_token && w.provider == c.provider &&
      w.project_id == c.project_id
  | _ => true

/-! ## Claims -/

/-- C1: on the gauth analyze path, when the stored `expires_at` (read
with default 0) is not in the future, exactly one token-refresh request
is issued, the credential's `access_token` is overwritten and its
`expires_at` recomputed as `now + expires_in * 1000`, and the full
updated credential object is written to the credential file before the
analyze request; when `expires_at` is in the future, no refresh request
is issued and the stored access token is the analyze bearer unchanged. -/
theorem gauth_refresh_c1 (c : GauthCred) (now : Int) (tok : TokenResponse) :
    (c.expires_at.getD 0 ≤ now →
      (analyze_gauth c now tok).2 =
        [GEffect.refreshRequest c.refresh_token,
         GEffect.writeCredsFile
           { c with access_token := tok.access_token,
                    expires_at := some (now + tok.expires_in.getD 3600 * 1000) },
         GEffect.analyzeRequest tok.access_token] ∧
      (analyze_gauth c now tok).2.countP isRefreshRequest = 1 ∧
      (analyze_gauth c now tok).1 =
        { c with access_token := tok.access_token,
                 expires_at := some (now + tok.expires_in.getD 3600 * 1000) }) ∧
    (now < c.expires_at.getD 0 →
      (analyze_gauth c now tok).2 = [GEffect.analyzeRequest c.access_token] ∧
      (analyze_gauth c now tok).2.countP isRefreshRequest = 0 ∧
      (analyze_gauth c now tok).1 = c) := by
  constructor
  · intro h
    have hn : ¬ now < c.expires_at.getD 0 := not_lt.mpr h
    simp [analyze_gauth, refresh_gauth_token, hn, isRefreshRequest, List.countP_cons]
  · intro h
    simp [analyze_gauth, refresh_gauth_token, h, isRefreshRequest, List.countP_cons]

/-- Witness for C1: both branches of `gauth_refresh_c1` applied at
concrete credentials. -/
theorem gauth_refresh_c1_witness :
    (analyze_gauth ⟨"old", some "r", some 3, some "antigravity", some "p"⟩ 10
        ⟨"new", some 60⟩).2 =
      [GEffect.refreshRequest (some "r"),
       GEffect.writeCredsFile ⟨"new", some "r", some (10 + 60 * 1000), some "antigravity", some "p"⟩,
       GEffect.analyzeRequest "new"] ∧
    (analyze_gauth ⟨"tok", some "r", some 99, none, none⟩ 10 ⟨"new", none⟩).2 =
      [GEffect.analyzeRequest "tok"] := by
  constructor
  · exact ((gauth_refresh_c1 ⟨"old", some "r", some 3, some "antigravity", some "p"⟩ 10
      ⟨"new", some 60⟩).1 (by decide)).1
  · exact ((gauth_refresh_c1 ⟨"tok", some "r", some 99, none, none⟩ 10
      ⟨"new", none⟩).2 (by decide)).1

/-- C2: the hotkey fires exactly on a key-down of the character key
`'f'` while both modifier booleans are set; a second modifier key-down
while already held leaves the state unchanged; character keys and other
unrelated keys never change the state; and in the concrete interleaving
where shift is released and `'f'` pressed again, no second trigger
fires. -/
theorem hotkey_c2 (s : HKState) :
    (∀ e : KEvent, (step s e).2 = true ↔
      (e = KEvent.down (Key.ch 'f') ∧ s.cmd_pressed = true ∧ s.shift_pressed = true)) ∧
    (s.cmd_pressed = true →
      (step s (KEvent.down Key.cmd)).1 = s ∧ (step s (KEvent.down Key.cmd_r)).1 = s) ∧
    (s.shift_pressed = true →
      (step s (KEvent.down Key.shift)).1 = s ∧ (step s (KEvent.down Key.shift_r)).1 = s) ∧
    (∀ (c : Char) (n : Nat),
      (step s (KEvent.down (Key.ch c))).1 = s ∧ (step s (KEvent.up (Key.ch c))).1 = s ∧
      (step s (KEvent.down (Key.other n))).1 = s ∧ (step s (KEvent.up (Key.other n))).1 = s) ∧
    (runEvents ⟨false, false⟩
        [KEvent.down Key.cmd, KEvent.down Key.shift, KEvent.down (Key.ch 'f'),
         KEvent.up Key.shift, KEvent.down (Key.ch 'f')]).2 =
      [false, false, true, false, false] := by
  refine ⟨?_, ?_, ?_, ?_, by decide⟩
  · intro e
    cases e with
    | down k =>
      cases k with
      | cmd => simp [step, on_press]
      | cmd_r => simp [step, on_press]
      | shift => simp [step, on_press]
      | shift_r => simp [step, on_press]
      | other n => simp [step, on_press]
      | ch c =>
        by_cases hc : c = 'f'
        · subst hc
          simp [step, on_press, Bool.and_eq_true]
        · simp [step, on_press, hc]
    | up k => simp [step]
  · intro h
    cases s with
    | mk a b => cases h; exact ⟨rfl, rfl⟩
  · intro h
    cases s with
    | mk a b => cases h; exact ⟨rfl, rfl⟩
  · intro c n
    exact ⟨rfl, rfl, rfl, rfl⟩

/-- Witness for C2: `hotkey_c2` applied at the fully-held state,
discharging the already-held hypotheses. -/
theorem hotkey_c2_witness :
    (step ⟨true, true⟩ (KEvent.down (Key.ch 'f'))).2 = true ∧
    (step ⟨true, true⟩ (KEvent.down Key.cmd)).1 = ⟨true, true⟩ ∧
    (step ⟨true, true⟩ (KEvent.down Key.shift_r)).1 = ⟨true, true⟩ ∧
    (step ⟨true, true⟩ (KEvent.down (Key.ch 'g'))).1 = ⟨true, true⟩ := by
  refine ⟨?_, ?_, ?_, ?_⟩
  · exact ((hotkey_c2 ⟨true, true⟩).1 (KEvent.down (Key.ch 'f'))).mpr ⟨rfl, rfl, rfl⟩
  · exact ((hotkey_c2 ⟨true, true⟩).2.1 rfl).1
  · exact ((hotkey_c2 ⟨true, true⟩).2.2.1 rfl).2
  · exact ((hotkey_c2 ⟨true, true⟩).2.2.2.1 'g' 0).1

/-- C9: the refresh path rewrites only `access_token` and `expires_at`:
the credential held in memory afterwards agrees with the input on
`refresh_token`, `provider` and `project_id`, and so does the payload of
every credential-file write in the effect list. -/
theorem gauth_c9_frame (c : GauthCred) (now : Int) (tok : TokenResponse) :
    (refresh_gauth_token c now tok).2.1.refresh_token = c.refresh_token ∧
    (refresh_gauth_token c now tok).2.1.provider = c.provider ∧
    (refresh_gauth_token c now tok).2.1.project_id = c.project_id ∧
    (refresh_gauth_token c now tok).2.2.all (credFieldsFrame c) = true := by
  by_cases h : now < c.expires_at.getD 0 <;>
    simp [refresh_gauth_token, h, credFieldsFrame]

/-- C10: a credential with no `expires_at` field reads as 0, so any
analyze call at a non-negative clock issues a refresh; a refresh
response with no `expires_in` defaults to 3600 seconds, making the new
`expires_at` equal to `now + 3600 * 1000`. -/
theorem gauth_c10_defaults (c : GauthCred) (now : Int) (tok : TokenResponse)
    (h1 : c.expires_at = none) (h2 : 0 ≤ now) (h3 : tok.expires_in = none) :
    (analyze_gauth c now tok).2.countP isRefreshRequest = 1 ∧
    (analyze_gauth c now tok).1.expires_at = some (now + 3600 * 1000) := by
  have hn : ¬ now < c.expires_at.getD 0 := by rw [h1]; exact not_lt.mpr h2
  simp [analyze_gauth, refresh_gauth_token, hn, h3, isRefreshRequest, List.countP_cons]

/-- Witness for C10: `gauth_c10_defaults` at a credential lacking
`expires_at` and a token response lacking `expires_in`. -/
theorem gauth_c10_witness :
    (analyze_gauth ⟨"t", some "r", none, none, none⟩ 5 ⟨"n", none⟩).2.countP
        isRefreshRequest = 1 ∧
    (analyze_gauth ⟨"t", some "r", none, none, none⟩ 5 ⟨"n", none⟩).1.expires_at =
      some (5 + 3600 * 1000) := by
  exact gauth_c10_defaults ⟨"t", some "r", none, none, none⟩ 5 ⟨"n", none⟩ rfl (by decide) rfl

/-- C3: a failed capture runs no backend call and deletes nothing, and a
successful run deletes the artifact exactly once — but an analyze
failure after a successful capture deletes the artifact ZERO times,
because `os.unlink` sits inside the `try` after the response display
(clue.py line 641) and the `except` branch never reaches it: the claimed
exactly-once deletion on the analyze-failure path does not hold. -/
theorem pipeline_c3_leak :
    (∀ (e : String) (ana : Except String String),
      (process (Except.error e) ana).countP isDeleteFile = 0 ∧
      (process (Except.error e) ana).countP isAnalyzeCall = 0) ∧
    (∀ p e : String, (process (Except.ok p) (Except.error e)).countP isDeleteFile = 0) ∧
    (∀ p r : String, (process (Except.ok p) (Except.ok r)).countP isDeleteFile = 1) := by
  refine ⟨fun e ana => ?_, fun p e => ?_, fun p r => ?_⟩ <;>
    simp [process, List.countP_cons, isDeleteFile, isAnalyzeCall]

/-- C4: an opening fence with no matching closing fence before
end-of-input emits NO segment for the buffered lines: the main loop of
`_render_markdown` ends with the buffer still held and there is no
flush after it, so the buffered content is silently discarded (the
claimed final `code_block` segment is never produced).  The second
conjunct shows the discard happens for every buffer. -/
theorem render_c4_unterminated_fence :
    render_markdown "```\nbuffered line 1\nbuffered line 2" = [] ∧
    ∀ (b : Bool) (buf : List (List Char)), renderLines [] b buf = [] :=
  ⟨by decide, fun _ _ => rfl⟩

/-- Counterexample for C5: with no candidates the gauth analyze path
returns normally with the sentinel string — it does not fail. -/
theorem gauth_extract_c5_counterexample :
    gauthExtract [] = Except.ok "No response from model" := rfl

/-- C5 (amended): with no candidates the call returns the sentinel
`'No response from model'` (a soft-fail, not an error); with candidates
whose parts hold no non-thinking text the call returns
`'No text in response'`; otherwise it returns the non-thinking texts
joined by newline, `thought`/`thinking`-flagged parts excluded. -/
theorem gauth_extract_c5 (cands : List GCandidate) :
    (cands = [] → gauthExtract cands = Except.ok "No response from model") ∧
    (∀ (cand : GCandidate) (rest : List GCandidate), cands = cand :: rest →
      (response_parts cand.parts = [] →
        gauthExtract cands = Except.ok "No text in response") ∧
      (response_parts cand.parts ≠ [] →
        gauthExtract cands =
          Except.ok (String.intercalate "\n" (response_parts cand.parts)))) := by
  constructor
  · intro h; subst h; rfl
  · intro cand rest h
    subst h
    constructor
    · intro hrp
      simp [gauthExtract, hrp]
    · intro hrp
      match hx : response_parts cand.parts with
      | [] => exact absurd hx hrp
      | a :: l => simp [gauthExtract, hx]

/-- Witness for C5: `gauth_extract_c5` at a candidate mixing a thinking
part with an answer part, and at a candidate with only a thinking part. -/
theorem gauth_extract_c5_witness :
    gauthExtract [⟨[⟨some "think", true, false⟩, ⟨some "ans", false, false⟩]⟩] =
      Except.ok (String.intercalate "\n"
        (response_parts [⟨some "think", true, false⟩, ⟨some "ans", false, false⟩])) ∧
    gauthExtract [⟨[⟨some "think", true, false⟩]⟩] = Except.ok "No text in response" := by
  constructor
  · exact ((gauth_extract_c5 [⟨[⟨some "think", true, false⟩, ⟨some "ans", false, false⟩]⟩]).2
      ⟨[⟨some "think", true, false⟩, ⟨some "ans", false, false⟩]⟩ [] rfl).2 (by decide)
  · exact ((gauth_extract_c5 [⟨[⟨some "think", true, false⟩]⟩]).2
      ⟨[⟨some "think", true, false⟩]⟩ [] rfl).1 (by decide)

/-- Counterexample for C6: the renderer's segments for the round-trip
input are not the claimed nine pairs — the line-terminating segments
carry the `'\n'` each inserted line ends with (the claimed eighth
segment `plain:""` is actually `plain:"\n"`). -/
theorem render_c6_counterexample :
    render_markdown "# Title\n**bold** and *italic* and `code`\n- item" ≠
      [⟨Tag.h1, "Title"⟩, ⟨Tag.plain, ""⟩, ⟨Tag.bold, "bold"⟩, ⟨Tag.plain, " and "⟩,
       ⟨Tag.italic, "italic"⟩, ⟨Tag.plain, " and "⟩, ⟨Tag.inline_code, "code"⟩,
       ⟨Tag.plain, ""⟩, ⟨Tag.plain, "  • item"⟩] := by decide

/-- C6 (amended): the round-trip input yields exactly the claimed nine
tag/text pairs once the newline terminating each rendered line is kept
in the line-final segments (`h1:"Title\n"`, the `plain:"\n"` closing the
inline line, and `plain:"  • item\n"`). -/
theorem render_c6_segments :
    render_markdown "# Title\n**bold** and *italic* and `code`\n- item" =
      [⟨Tag.h1, "Title\n"⟩, ⟨Tag.plain, ""⟩, ⟨Tag.bold, "bold"⟩, ⟨Tag.plain, " and "⟩,
       ⟨Tag.italic, "italic"⟩, ⟨Tag.plain, " and "⟩, ⟨Tag.inline_code, "code"⟩,
       ⟨Tag.plain, "\n"⟩, ⟨Tag.plain, "  • item\n"⟩] := by decide

/-- C7: every line starting with a header prefix (`"### "`, `"## "`,
`"# "`) is rendered, outside a fenced code block, as exactly one
segment holding the whole remainder after the stripped prefix (plus the
terminating newline) under the corresponding header tag — no inline
parsing touches it, whatever inline markers the remainder contains. -/
theorem header_c7 (line : List Char) :
    (hasPrefixL ['#', '#', '#', ' '] line = true →
      classifyLine line = [⟨Tag.h3, String.mk (line.drop 4 ++ ['\n'])⟩] ∧
      ∀ (rest buf : List (List Char)),
        renderLines (line :: rest) false buf =
          ⟨Tag.h3, String.mk (line.drop 4 ++ ['\n'])⟩ :: renderLines rest false buf) ∧
    (hasPrefixL ['#', '#', ' '] line = true →
      classifyLine line = [⟨Tag.h2, String.mk (line.drop 3 ++ ['\n'])⟩] ∧
      ∀ (rest buf : List (List Char)),
        renderLines (line :: rest) false buf =
          ⟨Tag.h2, String.mk (line.drop 3 ++ ['\n'])⟩ :: renderLines rest false buf) ∧
    (hasPrefixL ['#', ' '] line = true →
      classifyLine line = [⟨Tag.h1, String.mk (line.drop 2 ++ ['\n'])⟩] ∧
      ∀ (rest buf : List (List Char)),
        renderLines (line :: rest) false buf =
          ⟨Tag.h1, String.mk (line.drop 2 ++ ['\n'])⟩ :: renderLines rest false buf) := by
  refine ⟨fun h => ?_, fun h => ?_, fun h => ?_⟩ <;>
    obtain ⟨t, rfl⟩ := exists_of_hasPrefixL _ _ h <;>
    exact ⟨rfl, fun rest buf => rfl⟩

/-- Witness for C7: `header_c7` at a header line carrying inline
markers. -/
theorem header_c7_witness :
    classifyLine ("# **bold** and *i*".data) = [⟨Tag.h1, "**bold** and *i*\n"⟩] := by
  exact ((header_c7 ("# **bold** and *i*".data)).2.2 (by decide)).1

/-- C8: every failure of the capture or analyze step is caught at the
pipeline boundary and displayed as `"Error: "` followed by the raised
message verbatim, in place of a normal response (no `showResponse`
effect occurs on a failing run). -/
theorem pipeline_c8_error_display :
    (∀ (e : String) (ana : Except String String),
      process (Except.error e) ana = [PEffect.showError ("Error: " ++ e)]) ∧
    (∀ p e : String,
      process (Except.ok p) (Except.error e) =
        [PEffect.notify p, PEffect.analyzeCall p, PEffect.showError ("Error: " ++ e)]) :=
  ⟨fun _ _ => rfl, fun _ _ => rfl⟩
